import Mathlib

/-!
Verification of the ClickHouse MCP server's protocol-dispatch and
tool-registry subsystem (`main.py`, `clickhouse_mcp_tools.py`).

The embedding models JSON values as an inductive type, the bridge-mode
JSON-RPC dispatcher `BridgeHandler.process_bridge_request` as a total
function returning the response object together with an explicit log of
tool invocations and database queries (the dispatcher's only side
effects), and Python exceptions as an `Except String` layer that the
dispatcher's outer `try/except` collapses into `-32603` envelopes.
Exception message texts approximate the Python interpreter's rendering
(quotes dropped); no theorem depends on their exact wording.
-/

/-- JSON values (the payloads of `params`, schemas, and response objects).
Objects are association lists in insertion order, matching Python dicts
built from literals. Numbers are integers; no claim involves floats. -/
inductive Json where
  | null
  | bool (b : Bool)
  | num (n : Int)
  | str (s : String)
  | arr (xs : List Json)
  | obj (kv : List (String × Json))
deriving Repr

/-- Field lookup on a JSON object (`dict.get` on an object, `none` otherwise). -/
def Json.getField : Json → String → Option Json
  | Json.obj kv, k => kv.lookup k
  | _, _ => none

/-- Whether a JSON object carries a field of the given name. -/
def Json.hasField (j : Json) (k : String) : Bool :=
  match j with
  | Json.obj kv => kv.any (fun p => p.1 == k)
  | _ => false

/-- Python type name of a JSON value, as it appears in interpreter error
messages (`type(x).__name__`). -/
def pyTypeName : Json → String
  | Json.null => "NoneType"
  | Json.bool _ => "bool"
  | Json.num _ => "int"
  | Json.str _ => "str"
  | Json.arr _ => "list"
  | Json.obj _ => "dict"

/-- JSON string escaping for the common characters; `json.dumps` escaping
restricted to the characters that can occur in this system's payloads. -/
def escChar (c : Char) : String :=
  if c = '"' then "\\\""
  else if c = '\\' then "\\\\"
  else if c = '\n' then "\\n"
  else if c = '\t' then "\\t"
  else if c = '\r' then "\\r"
  else String.singleton c

/-- Escape a string for inclusion in serialized JSON. -/
def escapeJson (s : String) : String :=
  String.join (s.data.map escChar)

mutual

/-- Compact serialization: Python `json.dumps(x)` with its default
separators `", "` and `": "`. -/
def pyDumps : Json → String
  | Json.null => "null"
  | Json.bool true => "true"
  | Json.bool false => "false"
  | Json.num n => toString n
  | Json.str s => "\"" ++ escapeJson s ++ "\""
  | Json.arr xs => "[" ++ pyDumpsArr xs ++ "]"
  | Json.obj kv => "\x7b" ++ pyDumpsObj kv ++ "\x7d"

/-- Comma-joined compact serialization of array elements. -/
def pyDumpsArr : List Json → String
  | [] => ""
  | [x] => pyDumps x
  | x :: y :: xs => pyDumps x ++ ", " ++ pyDumpsArr (y :: xs)

/-- Comma-joined compact serialization of object entries. -/
def pyDumpsObj : List (String × Json) → String
  | [] => ""
  | [(k, v)] => "\"" ++ escapeJson k ++ "\": " ++ pyDumps v
  | (k, v) :: e :: kv =>
      "\"" ++ escapeJson k ++ "\": " ++ pyDumps v ++ ", " ++ pyDumpsObj (e :: kv)

end

/-- A run of spaces, used for `indent=2` serialization. -/
def spaces (n : Nat) : String := String.mk (List.replicate n ' ')

mutual

/-- Indented serialization at a nesting level: Python
`json.dumps(x, indent=2)` (item separator `","` + newline, key separator `": "`). -/
def dumpsInd (lvl : Nat) : Json → String
  | Json.null => "null"
  | Json.bool true => "true"
  | Json.bool false => "false"
  | Json.num n => toString n
  | Json.str s => "\"" ++ escapeJson s ++ "\""
  | Json.arr [] => "[]"
  | Json.arr (x :: xs) =>
      "[\n" ++ dumpsIndArr lvl (x :: xs) ++ "\n" ++ spaces (2 * lvl) ++ "]"
  | Json.obj [] => "\x7b\x7d"
  | Json.obj (e :: kv) =>
      "\x7b\n" ++ dumpsIndObj lvl (e :: kv) ++ "\n" ++ spaces (2 * lvl) ++ "\x7d"

/-- Indented serialization of array elements. -/
def dumpsIndArr (lvl : Nat) : List Json → String
  | [] => ""
  | [x] => spaces (2 * (lvl + 1)) ++ dumpsInd (lvl + 1) x
  | x :: y :: xs =>
      spaces (2 * (lvl + 1)) ++ dumpsInd (lvl + 1) x ++ ",\n" ++ dumpsIndArr lvl (y :: xs)

/-- Indented serialization of object entries. -/
def dumpsIndObj (lvl : Nat) : List (String × Json) → String
  | [] => ""
  | [(k, v)] =>
      spaces (2 * (lvl + 1)) ++ "\"" ++ escapeJson k ++ "\": " ++ dumpsInd (lvl + 1) v
  | (k, v) :: e :: kv =>
      spaces (2 * (lvl + 1)) ++ "\"" ++ escapeJson k ++ "\": " ++ dumpsInd (lvl + 1) v
        ++ ",\n" ++ dumpsIndObj lvl (e :: kv)

end

/-- Python `json.dumps(x, indent=2)`. -/
def pyDumpsIndent2 (j : Json) : String := dumpsInd 0 j

/-- A single-quote character, built by code point so repr strings stay
faithful to Python. -/
def squote : String := String.singleton (Char.ofNat 39)

mutual

/-- Python `repr` of a JSON value, used when values are interpolated into
f-strings inside containers. -/
def pyRepr : Json → String
  | Json.null => "None"
  | Json.bool true => "True"
  | Json.bool false => "False"
  | Json.num n => toString n
  | Json.str s => squote ++ s ++ squote
  | Json.arr xs => "[" ++ pyReprArr xs ++ "]"
  | Json.obj kv => "\x7b" ++ pyReprObj kv ++ "\x7d"

/-- Comma-joined reprs of list elements. -/
def pyReprArr : List Json → String
  | [] => ""
  | [x] => pyRepr x
  | x :: y :: xs => pyRepr x ++ ", " ++ pyReprArr (y :: xs)

/-- Comma-joined reprs of dict entries. -/
def pyReprObj : List (String × Json) → String
  | [] => ""
  | [(k, v)] => squote ++ k ++ squote ++ ": " ++ pyRepr v
  | (k, v) :: e :: kv =>
      squote ++ k ++ squote ++ ": " ++ pyRepr v ++ ", " ++ pyReprObj (e :: kv)

end

/-- Python `str` of a JSON value, as produced when the value is
interpolated into an f-string. -/
def pyStr : Json → String
  | Json.str s => s
  | v => pyRepr v

/-! ## Database collaborator and tool layer (`clickhouse_mcp_tools.py`) -/

/-- Python default whitespace for `str.strip` (the ASCII part, which is
all that reaches SQL text in practice). -/
def isPySpace (c : Char) : Bool :=
  c = ' ' || c = '\t' || c = '\n' || c = '\r' || c = '\x0b' || c = '\x0c'

/-- Python `str.strip()`: drop whitespace from both ends. -/
def strTrim (s : String) : String :=
  String.mk (((s.data.dropWhile isPySpace).reverse.dropWhile isPySpace).reverse)

/-- ASCII lower-casing of one character (Python `str.lower` restricted to
the ASCII range). -/
def lowerChar (c : Char) : Char :=
  if c.isUpper then Char.ofNat (c.toNat + 32) else c

/-- Python `str.lower()`. -/
def strToLower (s : String) : String :=
  String.mk (s.data.map lowerChar)

/-- Python `str.startswith(pre)`. -/
def strStartsWith (s pre : String) : Bool :=
  pre.data.isPrefixOf s.data

/-- Result of a successful ClickHouse query (`result.column_names`,
`result.result_rows`). -/
structure QueryResult where
  column_names : List String
  result_rows : List (List Json)

/-- The database collaborator: `client.query(sql)` either returns a result
or raises (modelled as `Except.error` carrying `str(e)`). Obtaining the
client itself can also raise; that is folded into the same error case. -/
abbrev Db := String → Except String QueryResult

/-- `row[0]` of every result row, `none` when some row is empty (Python
would raise `IndexError` there). -/
def firstCells : List (List Json) → Option (List Json)
  | [] => some []
  | [] :: _ => none
  | (c :: _) :: rest => (firstCells rest).map (fun cs => c :: cs)

namespace RunSelectQuery

/-- `self.name` of `RunSelectQuery`. -/
def name : String := "run_select_query"

/-- `self.description` of `RunSelectQuery`. -/
def description : String :=
  "Execute SELECT SQL queries on ClickHouse database. Queries are executed in readonly mode for safety."

/-- `RunSelectQuery.get_input_schema`. -/
def get_input_schema : Json :=
  Json.obj
    [("type", Json.str "object"),
     ("properties", Json.obj
       [("sql", Json.obj
         [("type", Json.str "string"),
          ("description", Json.str "The SQL SELECT query to execute")])]),
     ("required", Json.arr [Json.str "sql"])]

/-- `RunSelectQuery.execute`: reject non-SELECT/SHOW/DESCRIBE input before
touching the database; otherwise run the query and serialize the rows.
Returns the textual result together with the list of SQL texts actually
sent to the database. -/
def execute (db : Db) (sql : String) : String × List String :=
  let sql_lower := strToLower (strTrim sql)
  if !strStartsWith sql_lower "select" && !strStartsWith sql_lower "show"
      && !strStartsWith sql_lower "describe" then
    (pyDumps (Json.obj
      [("error", Json.str "Only SELECT, SHOW, and DESCRIBE queries are allowed")]), [])
  else
    match db sql with
    | Except.error e =>
        (pyDumps (Json.obj
          [("error", Json.str ("Query execution failed: " ++ e)),
           ("query", Json.str sql)]), [sql])
    | Except.ok result =>
        let columns := result.column_names
        let rows := result.result_rows.map (fun row => Json.obj (columns.zip row))
        (pyDumpsIndent2 (Json.obj
          [("success", Json.bool true),
           ("columns", Json.arr (columns.map Json.str)),
           ("rows", Json.arr rows),
           ("row_count", Json.num rows.length),
           ("query", Json.str sql)]), [sql])

end RunSelectQuery

namespace ListDatabases

/-- `self.name` of `ListDatabases`. -/
def name : String := "list_databases"

/-- `self.description` of `ListDatabases`. -/
def description : String := "List all databases available in the ClickHouse cluster"

/-- `ListDatabases.execute`: `SHOW DATABASES`, first cell of each row. -/
def execute (db : Db) : String × List String :=
  match db "SHOW DATABASES" with
  | Except.error e =>
      (pyDumps (Json.obj [("error", Json.str ("Failed to list databases: " ++ e))]),
       ["SHOW DATABASES"])
  | Except.ok result =>
      match firstCells result.result_rows with
      | none =>
          (pyDumps (Json.obj
            [("error", Json.str "Failed to list databases: list index out of range")]),
           ["SHOW DATABASES"])
      | some databases =>
          (pyDumpsIndent2 (Json.obj
            [("success", Json.bool true),
             ("databases", Json.arr databases),
             ("count", Json.num databases.length)]), ["SHOW DATABASES"])

end ListDatabases

namespace ListTables

/-- `self.name` of `ListTables`. -/
def name : String := "list_tables"

/-- `self.description` of `ListTables`. -/
def description : String := "List all tables in a specific database"

/-- `ListTables.get_input_schema`. -/
def get_input_schema : Json :=
  Json.obj
    [("type", Json.str "object"),
     ("properties", Json.obj
       [("database", Json.obj
         [("type", Json.str "string"),
          ("description", Json.str "The name of the database to list tables from")])]),
     ("required", Json.arr [Json.str "database"])]

/-- `ListTables.execute`: `SHOW TABLES FROM {database}` (f-string, so the
argument is interpolated via `str`), first cell of each row. -/
def execute (db : Db) (database : Json) : String × List String :=
  let sql := "SHOW TABLES FROM " ++ pyStr database
  match db sql with
  | Except.error e =>
      (pyDumps (Json.obj
        [("error", Json.str ("Failed to list tables: " ++ e)),
         ("database", database)]), [sql])
  | Except.ok result =>
      match firstCells result.result_rows with
      | none =>
          (pyDumps (Json.obj
            [("error", Json.str "Failed to list tables: list index out of range"),
             ("database", database)]), [sql])
      | some tables =>
          (pyDumpsIndent2 (Json.obj
            [("success", Json.bool true),
             ("database", database),
             ("tables", Json.arr tables),
             ("count", Json.num tables.length)]), [sql])

end ListTables

namespace DescribeTable

/-- `self.name` of `DescribeTable`. -/
def name : String := "describe_table"

/-- `self.description` of `DescribeTable`. -/
def description : String := "Get the structure/schema of a specific table"

/-- `DescribeTable.get_input_schema`. -/
def get_input_schema : Json :=
  Json.obj
    [("type", Json.str "object"),
     ("properties", Json.obj
       [("database", Json.obj
         [("type", Json.str "string"),
          ("description", Json.str "The name of the database")]),
        ("table", Json.obj
         [("type", Json.str "string"),
          ("description", Json.str "The name of the table")])]),
     ("required", Json.arr [Json.str "database", Json.str "table"])]

/-- `DescribeTable.execute`: `DESCRIBE TABLE {database}.{table}`. -/
def execute (db : Db) (database table : Json) : String × List String :=
  let sql := "DESCRIBE TABLE " ++ pyStr database ++ "." ++ pyStr table
  match db sql with
  | Except.error e =>
      (pyDumps (Json.obj
        [("error", Json.str ("Failed to describe table: " ++ e)),
         ("database", database), ("table", table)]), [sql])
  | Except.ok result =>
      let columns := result.column_names
      let schema := result.result_rows.map (fun row => Json.obj (columns.zip row))
      (pyDumpsIndent2 (Json.obj
        [("success", Json.bool true),
         ("database", database),
         ("table", table),
         ("schema", Json.arr schema)]), [sql])

end DescribeTable

/-- `ClickHouseToolHandler.get_available_tools`: name → info dict, in the
source's insertion order. The info dict repeats the name next to the
description; here each entry is the `(name, description)` pair. -/
def get_available_tools : List (String × String) :=
  [(RunSelectQuery.name, RunSelectQuery.description),
   (ListDatabases.name, ListDatabases.description),
   (ListTables.name, ListTables.description),
   (DescribeTable.name, DescribeTable.description)]

/-- The registered tool names (keys of `get_available_tools`). -/
def toolNames : List String := get_available_tools.map Prod.fst

/-- `ClickHouseToolHandler.call_tool`: dispatch by name to the tool's
`execute`, reading each parameter out of `kwargs` with `.get` (absent →
`None`). A non-string `sql` makes `sql.strip()` raise inside
`RunSelectQuery.execute`; its `except` turns that into an error payload
without issuing a query. -/
def call_tool (db : Db) (name : String) (kwargs : List (String × Json)) :
    String × List String :=
  if name = RunSelectQuery.name then
    match kwargs.lookup "sql" with
    | some (Json.str s) => RunSelectQuery.execute db s
    | some v =>
        (pyDumps (Json.obj
          [("error", Json.str ("Query execution failed: " ++ pyTypeName v
              ++ " object has no attribute strip")),
           ("query", v)]), [])
    | none =>
        (pyDumps (Json.obj
          [("error", Json.str "Query execution failed: NoneType object has no attribute strip"),
           ("query", Json.null)]), [])
  else if name = ListDatabases.name then
    ListDatabases.execute db
  else if name = ListTables.name then
    ListTables.execute db ((kwargs.lookup "database").getD Json.null)
  else if name = DescribeTable.name then
    DescribeTable.execute db ((kwargs.lookup "database").getD Json.null)
      ((kwargs.lookup "table").getD Json.null)
  else
    (pyDumps (Json.obj [("error", Json.str ("Unknown tool: " ++ name))]), [])

/-! ## Schema manager (`SchemaManager` in `main.py`) -/

/-- `SchemaManager._default_schema`: the canonical empty-object schema. -/
def default_schema : Json :=
  Json.obj
    [("type", Json.str "object"),
     ("properties", Json.obj []),
     ("required", Json.arr [])]

/-- `SchemaManager._get_tool_instance` composed with the
`hasattr(instance, "get_input_schema")` probe: the declared input schema
of each registered tool, `none` for `list_databases` (which declares no
schema) and for names outside the instance mapping. All declared schemas
are non-empty dicts, so the truthiness test on `custom_schema` passes. -/
def get_input_schema (tool_name : String) : Option Json :=
  if tool_name = RunSelectQuery.name then some RunSelectQuery.get_input_schema
  else if tool_name = ListTables.name then some ListTables.get_input_schema
  else if tool_name = DescribeTable.name then some DescribeTable.get_input_schema
  else none

/-- `SchemaManager.get_tool_schema`: the per-tool listing entry, carrying
the declared schema when there is one and `default_schema` otherwise. -/
def get_tool_schema (tool_name description : String) : Json :=
  match get_input_schema tool_name with
  | some custom =>
      Json.obj
        [("name", Json.str tool_name),
         ("description", Json.str description),
         ("inputSchema", custom)]
  | none =>
      Json.obj
        [("name", Json.str tool_name),
         ("description", Json.str description),
         ("inputSchema", default_schema)]

/-- `custom_schema.get("required", [])`, keeping the string entries (all
actual `required` lists consist of strings). -/
def schemaRequired (schema : Json) : List String :=
  match schema with
  | Json.obj kv =>
      match kv.lookup "required" with
      | some (Json.arr xs) =>
          xs.filterMap (fun x => match x with | Json.str s => some s | _ => none)
      | _ => []
  | _ => []

/-- `SchemaManager.get_tool_required_params`. -/
def get_tool_required_params (tool_name : String) : List String :=
  match get_input_schema tool_name with
  | some custom => schemaRequired custom
  | none => []

/-- Python `param in arguments` for an arbitrary `arguments` value: key
test on dicts, element test on lists, substring test on strings, and a
raised `TypeError` on non-iterables. -/
def jsonContainsKey (arguments : Json) (param : String) : Except String Bool :=
  match arguments with
  | Json.obj kv => Except.ok (kv.any (fun p => p.1 == param))
  | Json.arr xs =>
      Except.ok (xs.any (fun x => match x with | Json.str s => s == param | _ => false))
  | Json.str s => Except.ok (decide (param.data <:+: s.data))
  | Json.null => Except.error "argument of type NoneType is not iterable"
  | Json.bool _ => Except.error "argument of type bool is not iterable"
  | Json.num _ => Except.error "argument of type int is not iterable"

/-- The `for param in required_params` loop of
`SchemaManager.validate_tool_params`: first absent parameter wins. -/
def validateRequired (tool_name : String) (arguments : Json) :
    List String → Except String (Option String)
  | [] => Except.ok none
  | param :: rest =>
      match jsonContainsKey arguments param with
      | Except.error e => Except.error e
      | Except.ok false => Except.ok (some (param ++ " is required for " ++ tool_name))
      | Except.ok true => validateRequired tool_name arguments rest

/-- `SchemaManager.validate_tool_params`: `none` when valid, an error
message naming the first missing required parameter otherwise; a raised
`TypeError` (non-iterable `arguments`) surfaces as `Except.error`. -/
def validate_tool_params (tool_name : String) (arguments : Json) :
    Except String (Option String) :=
  validateRequired tool_name arguments (get_tool_required_params tool_name)

/-! ## Bridge-mode dispatcher (`BridgeHandler.process_bridge_request`) -/

/-- The `MCPRequest` dataclass: `jsonrpc`, `method`, optional `id`,
optional `params` (a JSON object). -/
structure MCPRequest where
  jsonrpc : String
  method : String
  id : Option String := none
  params : Option (List (String × Json)) := none

/-- A dispatch outcome: the returned object plus the dispatcher's side
effects — the tool invocations performed (name and arguments value handed
to `call_tool`) and the SQL queries issued to the database. -/
structure DispatchOut where
  response : Json
  invocations : List (String × Json)
  queries : List String
deriving Repr

/-- `request.params or {}` used by the notification echo: `None` and the
empty dict both yield `{}`; a non-empty dict passes through. -/
def paramsOrEmpty : Option (List (String × Json)) → Json
  | none => Json.obj []
  | some kv => Json.obj kv

/-- The object returned for a request without an id: the method and params
echoed back, with no `id`, `result` or `error` field. -/
def notificationEcho (req : MCPRequest) : Json :=
  Json.obj
    [("jsonrpc", Json.str "2.0"),
     ("method", Json.str req.method),
     ("params", paramsOrEmpty req.params)]

/-- The fixed `initialize` result descriptor. -/
def initialize_result : Json :=
  Json.obj
    [("protocolVersion", Json.str "2024-11-05"),
     ("capabilities", Json.obj [("tools", Json.obj [])]),
     ("serverInfo", Json.obj
       [("name", Json.str "clickhouse-mcp-server"),
        ("version", Json.str "1.0.0")])]

/-- A success envelope: `jsonrpc`, echoed `id`, `result`. -/
def successEnvelope (i : String) (result : Json) : Json :=
  Json.obj
    [("jsonrpc", Json.str "2.0"),
     ("id", Json.str i),
     ("result", result)]

/-- An error envelope: `jsonrpc`, echoed `id`, `error` with code and message. -/
def errorEnvelope (i : Json) (code : Int) (message : String) : Json :=
  Json.obj
    [("jsonrpc", Json.str "2.0"),
     ("id", i),
     ("error", Json.obj [("code", Json.num code), ("message", Json.str message)])]

/-- The id attached by the outer `except` handler:
`getattr(request, "id", "unknown")`, which is the request's own id
(`null` when absent — that branch is unreachable, the id-less path
returns before any fault can occur). -/
def idJson : Option String → Json
  | none => Json.null
  | some s => Json.str s

/-- `call_tool(tool_name, **arguments)` argument unpacking: `**` demands a
mapping and raises `TypeError` otherwise. -/
def kwargsOf (arguments : Json) : Except String (List (String × Json)) :=
  match arguments with
  | Json.obj kv => Except.ok kv
  | Json.null => Except.error "argument after ** must be a mapping, not NoneType"
  | Json.bool _ => Except.error "argument after ** must be a mapping, not bool"
  | Json.num _ => Except.error "argument after ** must be a mapping, not int"
  | Json.str _ => Except.error "argument after ** must be a mapping, not str"
  | Json.arr _ => Except.error "argument after ** must be a mapping, not list"

/-- The `tools/call` branch given a present `params` dict: look up the
tool by `params.name` (unhashable names make the dict-membership test
raise), validate required parameters, then invoke the tool and wrap its
text output. -/
def handle_tools_call (db : Db) (i : String) (p : List (String × Json)) :
    Except String DispatchOut :=
  let tool_name := (p.lookup "name").getD Json.null
  let arguments := (p.lookup "arguments").getD (Json.obj [])
  match tool_name with
  | Json.arr _ => Except.error "unhashable type: list"
  | Json.obj _ => Except.error "unhashable type: dict"
  | Json.str s =>
      if s ∈ toolNames then
        match validate_tool_params s arguments with
        | Except.error e => Except.error e
        | Except.ok (some msg) =>
            Except.ok ⟨errorEnvelope (Json.str i) (-32602) msg, [], []⟩
        | Except.ok none =>
            match kwargsOf arguments with
            | Except.error e => Except.error e
            | Except.ok kwargs =>
                let r := call_tool db s kwargs
                Except.ok
                  ⟨successEnvelope i (Json.obj
                     [("content", Json.arr
                       [Json.obj [("type", Json.str "text"), ("text", Json.str r.1)]])]),
                   [(s, arguments)], r.2⟩
      else
        Except.ok ⟨errorEnvelope (Json.str i) (-32601) ("Unknown tool: " ++ s), [], []⟩
  | v =>
      Except.ok ⟨errorEnvelope (Json.str i) (-32601) ("Unknown tool: " ++ pyStr v), [], []⟩

/-- The `try` body of `BridgeHandler.process_bridge_request`: the JSON-RPC
method state machine. `Except.error` marks the points where the Python
code raises (caught by the outer handler). -/
def process_bridge_request_core (db : Db) (req : MCPRequest) : Except String DispatchOut :=
  match req.id with
  | none => Except.ok ⟨notificationEcho req, [], []⟩
  | some i =>
      if req.method = "initialize" then
        Except.ok ⟨successEnvelope i initialize_result, [], []⟩
      else if req.method = "tools/list" then
        Except.ok
          ⟨successEnvelope i (Json.obj
            [("tools", Json.arr
              (get_available_tools.map (fun t => get_tool_schema t.1 t.2)))]),
           [], []⟩
      else if req.method = "resources/list" then
        Except.ok ⟨successEnvelope i (Json.obj [("resources", Json.arr [])]), [], []⟩
      else if req.method = "prompts/list" then
        Except.ok ⟨successEnvelope i (Json.obj [("prompts", Json.arr [])]), [], []⟩
      else if req.method = "tools/call" then
        match req.params with
        | none => Except.error "NoneType object has no attribute get"
        | some p => handle_tools_call db i p
      else
        Except.ok
          ⟨errorEnvelope (Json.str i) (-32601) ("Method not found: " ++ req.method), [], []⟩

/-- `BridgeHandler.process_bridge_request`: the `try` body with its
`except` clause, which converts any raised fault into a `-32603`
"Internal error" envelope carrying the request's id. Total by
construction — no fault escapes the dispatcher. -/
def process_bridge_request (db : Db) (req : MCPRequest) : DispatchOut :=
  match process_bridge_request_core db req with
  | Except.ok out => out
  | Except.error e =>
      ⟨errorEnvelope (idJson req.id) (-32603) ("Internal error: " ++ e), [], []⟩

/-! ## Connection lifecycle (`BridgeHandler` connections + heartbeat) -/

/-- The `self.connections` mapping: connection id → liveness flag. -/
abbrev Conns := List (String × Bool)

/-- `self.connections[cid] = v`: insert or overwrite. -/
def Conns.set : Conns → String → Bool → Conns
  | [], cid, v => [(cid, v)]
  | (k, b) :: rest, cid, v =>
      if k = cid then (cid, v) :: rest else (k, b) :: Conns.set rest cid v

/-- `self.connections.pop(cid, None)`: idempotent removal. -/
def Conns.pop (m : Conns) (cid : String) : Conns :=
  m.filter (fun p => p.1 != cid)

/-- `self.connections.get(cid, False)`: the liveness test used by the
heartbeat loop. -/
def isAlive (m : Conns) (cid : String) : Bool :=
  (m.lookup cid).getD false

/-- Events emitted on the bridge heartbeat stream. -/
inductive HBEvent where
  | connection (id : String)
  | heartbeat (timestamp : String)
deriving Repr

/-- How the heartbeat loop ended. -/
inductive LoopExit where
  | normal
  | disconnected
  | faulted (msg : String)
  | outOfFuel
deriving Repr

/-- The `while self.connections.get(connection_id, False)` loop of
`create_heartbeat_stream`: each iteration may fault (any awaited
operation raising — caught by the `except` branch), otherwise yields a
heartbeat carrying the clock's timestamp, sleeps, and breaks once the
transport reports the client disconnected. `fuel` bounds the number of
iterations modelled; the cleanup property below holds for every fuel. -/
def heartbeat_loop (m : Conns) (cid : String) (disc : Nat → Bool)
    (clock : Nat → String) (fault : Nat → Option String) :
    Nat → Nat → List HBEvent × LoopExit
  | 0, _ => ([], LoopExit.outOfFuel)
  | fuel + 1, step =>
      if isAlive m cid then
        match fault step with
        | some msg => ([], LoopExit.faulted msg)
        | none =>
            let ev := HBEvent.heartbeat (clock step)
            if disc step then
              ([ev], LoopExit.disconnected)
            else
              let rest := heartbeat_loop m cid disc clock fault fuel (step + 1)
              (ev :: rest.1, rest.2)
      else ([], LoopExit.normal)

/-- `BridgeHandler.create_heartbeat_stream`: register the connection as
alive, emit the connection event, run the heartbeat loop, and — in the
`finally` block, on every exit path — pop the connection record. Returns
the emitted events, the final connection map, and how the loop exited. -/
def create_heartbeat_stream (m : Conns) (cid : String) (disc : Nat → Bool)
    (clock : Nat → String) (fault : Nat → Option String) (fuel : Nat) :
    List HBEvent × Conns × LoopExit :=
  let m1 := Conns.set m cid true
  let r := heartbeat_loop m1 cid disc clock fault fuel 0
  (HBEvent.connection cid :: r.1, Conns.pop m1 cid, r.2)

/-! ## Derived definitions used by the statements -/

/-- A response envelope for id `i` in the sense of the data model: the
object carries `id` equal to the request's id and exactly one of the
fields `result` and `error`. -/
def goodEnvelope (i : String) (j : Json) : Prop :=
  Json.getField j "id" = some (Json.str i) ∧
    ((Json.hasField j "result" = true ∧ Json.hasField j "error" = false) ∨
     (Json.hasField j "result" = false ∧ Json.hasField j "error" = true))

/-- A database stub whose every query raises; used to evaluate the
dispatcher at concrete inputs on paths that never reach the database. -/
def dbStub : Db := fun _ => Except.error "no database"

/-- A database stub returning one single-cell row for every query. -/
def dbOneRow : Db := fun _ => Except.ok ⟨["name"], [[Json.str "t1"]]⟩

/-- The value of the `tools` array returned by `tools/list`: one listing
entry per registered tool, in registration order. -/
def tools_list_entries : List Json :=
  get_available_tools.map (fun t => get_tool_schema t.1 t.2)

/-! ## Helper lemmas -/

/-- A success envelope is a well-formed response envelope for its id. -/
theorem goodEnvelope_success (i : String) (r : Json) : goodEnvelope i (successEnvelope i r) :=
  ⟨rfl, Or.inl ⟨rfl, rfl⟩⟩

/-- An error envelope is a well-formed response envelope for its id. -/
theorem goodEnvelope_error (i : String) (c : Int) (m : String) :
    goodEnvelope i (errorEnvelope (Json.str i) c m) :=
  ⟨rfl, Or.inr ⟨rfl, rfl⟩⟩

/-- Every non-raising outcome of the `tools/call` branch is a well-formed
response envelope for the request id. -/
theorem handle_tools_call_ok (db : Db) (i : String) (p : List (String × Json))
    (out : DispatchOut) (h : handle_tools_call db i p = Except.ok out) :
    goodEnvelope i out.response := by
  unfold handle_tools_call at h
  dsimp only [] at h
  split at h
  · exact Except.noConfusion h
  · exact Except.noConfusion h
  · split at h
    · split at h
      · exact Except.noConfusion h
      · rw [Except.ok.injEq] at h; subst h; apply goodEnvelope_error
      · split at h
        · exact Except.noConfusion h
        · rw [Except.ok.injEq] at h; subst h; apply goodEnvelope_success
    · rw [Except.ok.injEq] at h; subst h; apply goodEnvelope_error
  · rw [Except.ok.injEq] at h; subst h; apply goodEnvelope_error

/-- Every non-raising outcome of the dispatcher body on an id-carrying
request is a well-formed response envelope for that id. -/
theorem core_ok_good (db : Db) (req : MCPRequest) (i : String) (out : DispatchOut)
    (h : req.id = some i) (hc : process_bridge_request_core db req = Except.ok out) :
    goodEnvelope i out.response := by
  unfold process_bridge_request_core at hc
  rw [h] at hc
  split_ifs at hc with h1 h2 h3 h4 h5
  · rw [Except.ok.injEq] at hc; subst hc; apply goodEnvelope_success
  · rw [Except.ok.injEq] at hc; subst hc; apply goodEnvelope_success
  · rw [Except.ok.injEq] at hc; subst hc; apply goodEnvelope_success
  · rw [Except.ok.injEq] at hc; subst hc; apply goodEnvelope_success
  · cases hq : req.params with
    | none => rw [hq] at hc; exact Except.noConfusion hc
    | some p => rw [hq] at hc; exact handle_tools_call_ok db i p out hc
  · rw [Except.ok.injEq] at hc; subst hc; apply goodEnvelope_error

/-- A `validateRequired` step on an absent parameter reports it. -/
theorem validateRequired_step_missing (tn : String) (args : Json) (param : String)
    (rest : List String) (h : jsonContainsKey args param = Except.ok false) :
    validateRequired tn args (param :: rest) =
      Except.ok (some (param ++ " is required for " ++ tn)) := by
  unfold validateRequired
  rw [h]

/-- A `validateRequired` step on a present parameter moves to the rest. -/
theorem validateRequired_step_present (tn : String) (args : Json) (param : String)
    (rest : List String) (h : jsonContainsKey args param = Except.ok true) :
    validateRequired tn args (param :: rest) = validateRequired tn args rest := by
  conv_lhs => unfold validateRequired
  rw [h]

/-- A `tools/call` on a registered tool whose validation reports a message
produces the `-32602` envelope carrying that message. -/
theorem tools_call_invalid_params (db : Db) (j i : String) (p : List (String × Json))
    (t : String) (msg : String)
    (hname : p.lookup "name" = some (Json.str t))
    (hreg : t ∈ toolNames)
    (hval : validate_tool_params t ((p.lookup "arguments").getD (Json.obj [])) =
      Except.ok (some msg)) :
    process_bridge_request db ⟨j, "tools/call", some i, some p⟩ =
      ⟨errorEnvelope (Json.str i) (-32602) msg, [], []⟩ := by
  unfold process_bridge_request process_bridge_request_core handle_tools_call
  simp [hname, hreg, hval]

/-- Looking up a key just set finds the value set. -/
theorem lookup_set (m : Conns) (cid : String) (v : Bool) :
    (Conns.set m cid v).lookup cid = some v := by
  induction m with
  | nil => simp [Conns.set, List.lookup]
  | cons hd tl ih =>
      obtain ⟨k, b⟩ := hd
      by_cases hk : k = cid
      · subst hk
        simp [Conns.set, List.lookup]
      · simp only [Conns.set, if_neg hk, List.lookup]
        rw [show (cid == k) = false from by simpa using Ne.symm hk]
        exact ih

/-- Looking up a key just popped finds nothing. -/
theorem lookup_pop (m : Conns) (cid : String) :
    (Conns.pop m cid).lookup cid = none := by
  induction m with
  | nil => rfl
  | cons hd tl ih =>
      obtain ⟨k, b⟩ := hd
      by_cases hk : k = cid
      · subst hk
        simpa [Conns.pop, List.filter] using ih
      · simp only [Conns.pop, List.filter] at ih ⊢
        rw [show ((k, b).1 != cid) = true from by simpa using hk]
        simp only [List.lookup]
        rw [show (cid == k) = false from by simpa using Ne.symm hk]
        exact ih

/-- Popping a key twice is the same as popping it once. -/
theorem pop_pop (m : Conns) (cid : String) :
    Conns.pop (Conns.pop m cid) cid = Conns.pop m cid := by
  unfold Conns.pop
  rw [List.filter_filter]
  simp

/-! ## Claim theorems -/

/-- Claim C1: for every request whose id is absent, the dispatcher returns
the notification echo — an object with no `id`, `result` or `error` field,
hence not a response envelope — and performs no side effect of its own: it
invokes no tool and issues no database query, in particular a `tools/call`
notification never invokes a tool. -/
theorem notification_is_inert (db : Db) (req : MCPRequest) (h : req.id = none) :
    process_bridge_request db req = ⟨notificationEcho req, [], []⟩ ∧
    Json.hasField (notificationEcho req) "id" = false ∧
    Json.hasField (notificationEcho req) "result" = false ∧
    Json.hasField (notificationEcho req) "error" = false := by
  refine ⟨?_, rfl, rfl, rfl⟩
  unfold process_bridge_request process_bridge_request_core
  rw [h]

/-- Witness for C1: a `tools/call` notification naming `run_select_query`
with a destructive SQL argument invokes nothing and gets no response
envelope. -/
theorem notification_is_inert_witness :
    process_bridge_request dbStub
        ⟨"2.0", "tools/call", none,
         some [("name", Json.str "run_select_query"),
               ("arguments", Json.obj [("sql", Json.str "DROP TABLE t")])]⟩ =
      ⟨notificationEcho
        ⟨"2.0", "tools/call", none,
         some [("name", Json.str "run_select_query"),
               ("arguments", Json.obj [("sql", Json.str "DROP TABLE t")])]⟩, [], []⟩ ∧
    Json.hasField (notificationEcho
        ⟨"2.0", "tools/call", none,
         some [("name", Json.str "run_select_query"),
               ("arguments", Json.obj [("sql", Json.str "DROP TABLE t")])]⟩) "id" = false ∧
    Json.hasField (notificationEcho
        ⟨"2.0", "tools/call", none,
         some [("name", Json.str "run_select_query"),
               ("arguments", Json.obj [("sql", Json.str "DROP TABLE t")])]⟩) "result" = false ∧
    Json.hasField (notificationEcho
        ⟨"2.0", "tools/call", none,
         some [("name", Json.str "run_select_query"),
               ("arguments", Json.obj [("sql", Json.str "DROP TABLE t")])]⟩) "error" = false :=
  notification_is_inert dbStub _ rfl

/-- Claim C2: for every request carrying an id, the dispatcher's response
object carries `id` equal to the request's id verbatim and exactly one of
the fields `result` and `error` — never both, never neither. -/
theorem response_exclusive (db : Db) (req : MCPRequest) (i : String) (h : req.id = some i) :
    goodEnvelope i (process_bridge_request db req).response := by
  unfold process_bridge_request
  cases hc : process_bridge_request_core db req with
  | ok out => exact core_ok_good db req i out h hc
  | error e =>
      show goodEnvelope i (errorEnvelope (idJson req.id) (-32603) ("Internal error: " ++ e))
      rw [h]
      exact goodEnvelope_error i (-32603) ("Internal error: " ++ e)

/-- Witness for C2 at a concrete `initialize` request with id `"7"`. -/
theorem response_exclusive_witness :
    goodEnvelope "7" (process_bridge_request dbStub ⟨"2.0", "initialize", some "7", none⟩).response :=
  response_exclusive dbStub ⟨"2.0", "initialize", some "7", none⟩ "7" rfl

/-- Claim C3: a `tools/call` request with an id whose `params.name` is not
a registered tool name yields the `-32601` envelope with message
`Unknown tool: <name>`. -/
theorem unknown_tool_error (db : Db) (j i : String) (p : List (String × Json)) (n : String)
    (hname : p.lookup "name" = some (Json.str n)) (hreg : n ∉ toolNames) :
    process_bridge_request db ⟨j, "tools/call", some i, some p⟩ =
      ⟨errorEnvelope (Json.str i) (-32601) ("Unknown tool: " ++ n), [], []⟩ := by
  unfold process_bridge_request process_bridge_request_core handle_tools_call
  simp [hname, hreg]

/-- Witness for C3 at the unregistered tool name `"nope"`. -/
theorem unknown_tool_error_witness :
    process_bridge_request dbStub
        ⟨"2.0", "tools/call", some "1", some [("name", Json.str "nope")]⟩ =
      ⟨errorEnvelope (Json.str "1") (-32601) "Unknown tool: nope", [], []⟩ :=
  unknown_tool_error dbStub "2.0" "1" [("name", Json.str "nope")] "nope" rfl (by decide)

/-- Claim C4: a `tools/call` request with an id naming a registered tool
with some required parameter absent from `params.arguments` yields a
`-32602` envelope whose message names a missing required parameter (the
first one checked); in particular `list_tables` with empty arguments
yields `-32602` with message `database is required for list_tables`. -/
theorem missing_required_param (db : Db) (j i : String) (p : List (String × Json))
    (t : String) (kv : List (String × Json)) (q : String)
    (hname : p.lookup "name" = some (Json.str t))
    (hargs : p.lookup "arguments" = some (Json.obj kv))
    (hq : q ∈ get_tool_required_params t)
    (hmiss : kv.any (fun e => e.1 == q) = false) :
    (∃ mp, mp ∈ get_tool_required_params t ∧ kv.any (fun e => e.1 == mp) = false ∧
      process_bridge_request db ⟨j, "tools/call", some i, some p⟩ =
        ⟨errorEnvelope (Json.str i) (-32602) (mp ++ " is required for " ++ t), [], []⟩) ∧
    process_bridge_request db ⟨"2.0", "tools/call", some "9",
        some [("name", Json.str "list_tables"), ("arguments", Json.obj [])]⟩ =
      ⟨errorEnvelope (Json.str "9") (-32602) "database is required for list_tables", [], []⟩ := by
  refine ⟨?_, rfl⟩
  have hargsD : (p.lookup "arguments").getD (Json.obj []) = Json.obj kv := by
    rw [hargs]; rfl
  by_cases h1 : t = RunSelectQuery.name
  · subst h1
    have hq' : q = "sql" := by
      rw [show get_tool_required_params RunSelectQuery.name = ["sql"] from rfl] at hq
      simpa using hq
    subst hq'
    have hck : jsonContainsKey (Json.obj kv) "sql" = Except.ok false :=
      congrArg Except.ok hmiss
    refine ⟨"sql", by decide, hmiss, ?_⟩
    refine tools_call_invalid_params db j i p _ _ hname (by decide) ?_
    rw [hargsD,
      show validate_tool_params RunSelectQuery.name (Json.obj kv) =
        validateRequired RunSelectQuery.name (Json.obj kv) ["sql"] from rfl]
    exact validateRequired_step_missing _ _ _ _ hck
  · by_cases h2 : t = ListTables.name
    · subst h2
      have hq' : q = "database" := by
        rw [show get_tool_required_params ListTables.name = ["database"] from rfl] at hq
        simpa using hq
      subst hq'
      have hck : jsonContainsKey (Json.obj kv) "database" = Except.ok false :=
        congrArg Except.ok hmiss
      refine ⟨"database", by decide, hmiss, ?_⟩
      refine tools_call_invalid_params db j i p _ _ hname (by decide) ?_
      rw [hargsD,
        show validate_tool_params ListTables.name (Json.obj kv) =
          validateRequired ListTables.name (Json.obj kv) ["database"] from rfl]
      exact validateRequired_step_missing _ _ _ _ hck
    · by_cases h3 : t = DescribeTable.name
      · subst h3
        by_cases hdb : kv.any (fun e => e.1 == "database") = true
        · have hq' : q = "table" := by
            rw [show get_tool_required_params DescribeTable.name = ["database", "table"]
              from rfl] at hq
            rcases List.mem_cons.mp hq with hq1 | hq1
            · exfalso
              rw [hq1] at hmiss
              rw [hmiss] at hdb
              exact Bool.false_ne_true hdb
            · simpa using hq1
          subst hq'
          have hckd : jsonContainsKey (Json.obj kv) "database" = Except.ok true :=
            congrArg Except.ok hdb
          have hckt : jsonContainsKey (Json.obj kv) "table" = Except.ok false :=
            congrArg Except.ok hmiss
          refine ⟨"table", by decide, hmiss, ?_⟩
          refine tools_call_invalid_params db j i p _ _ hname (by decide) ?_
          rw [hargsD,
            show validate_tool_params DescribeTable.name (Json.obj kv) =
              validateRequired DescribeTable.name (Json.obj kv) ["database", "table"]
              from rfl,
            validateRequired_step_present _ _ _ _ hckd]
          exact validateRequired_step_missing _ _ _ _ hckt
        · have hdb' : kv.any (fun e => e.1 == "database") = false := by
            rwa [Bool.not_eq_true] at hdb
          have hckd : jsonContainsKey (Json.obj kv) "database" = Except.ok false :=
            congrArg Except.ok hdb'
          refine ⟨"database", by decide, hdb', ?_⟩
          refine tools_call_invalid_params db j i p _ _ hname (by decide) ?_
          rw [hargsD,
            show validate_tool_params DescribeTable.name (Json.obj kv) =
              validateRequired DescribeTable.name (Json.obj kv) ["database", "table"]
              from rfl]
          exact validateRequired_step_missing _ _ _ _ hckd
      · exfalso
        have hempty : get_tool_required_params t = [] := by
          unfold get_tool_required_params get_input_schema
          rw [if_neg h1, if_neg h2, if_neg h3]
        rw [hempty] at hq
        exact List.not_mem_nil q hq

/-- Witness for C4: `list_tables` called with empty arguments. -/
theorem missing_required_param_witness :
    (∃ mp, mp ∈ get_tool_required_params "list_tables" ∧
      List.any [] (fun (e : String × Json) => e.1 == mp) = false ∧
      process_bridge_request dbStub ⟨"2.0", "tools/call", some "9",
          some [("name", Json.str "list_tables"), ("arguments", Json.obj [])]⟩ =
        ⟨errorEnvelope (Json.str "9") (-32602) (mp ++ " is required for " ++ "list_tables"),
         [], []⟩) ∧
    process_bridge_request dbStub ⟨"2.0", "tools/call", some "9",
        some [("name", Json.str "list_tables"), ("arguments", Json.obj [])]⟩ =
      ⟨errorEnvelope (Json.str "9") (-32602) "database is required for list_tables", [], []⟩ :=
  missing_required_param dbStub "2.0" "9"
    [("name", Json.str "list_tables"), ("arguments", Json.obj [])]
    "list_tables" [] "database" rfl rfl (by decide) rfl

/-- Claim C5: `tools/list` with an id returns one listing entry per
registered tool, in registration order, with `inputSchema` equal to the
tool's declared schema when it declares one and the canonical
empty-object schema otherwise (`list_databases` declares none). -/
theorem tools_list_complete_ordered (db : Db) (j i : String)
    (p : Option (List (String × Json))) :
    process_bridge_request db ⟨j, "tools/list", some i, p⟩ =
      ⟨successEnvelope i (Json.obj [("tools", Json.arr tools_list_entries)]), [], []⟩ ∧
    tools_list_entries.length = get_available_tools.length ∧
    tools_list_entries.map (fun e => Json.getField e "name") =
      get_available_tools.map (fun t => some (Json.str t.1)) ∧
    tools_list_entries.map (fun e => Json.getField e "inputSchema") =
      [some RunSelectQuery.get_input_schema, some default_schema,
       some ListTables.get_input_schema, some DescribeTable.get_input_schema] :=
  ⟨rfl, rfl, rfl, rfl⟩

/-- Claim C6: any fault raised inside the dispatch body is caught at the
dispatch boundary and converted into a `-32603` envelope with message
`Internal error: <message>`; the dispatcher itself is a total function,
so no exception propagates out of it. -/
theorem internal_fault_caught (db : Db) (req : MCPRequest) (e : String)
    (h : process_bridge_request_core db req = Except.error e) :
    process_bridge_request db req =
      ⟨errorEnvelope (idJson req.id) (-32603) ("Internal error: " ++ e), [], []⟩ := by
  unfold process_bridge_request
  rw [h]

/-- Witness for C6: `tools/call` with absent `params` raises inside the
body and is converted into the `-32603` envelope. -/
theorem internal_fault_caught_witness :
    process_bridge_request dbStub ⟨"2.0", "tools/call", some "5", none⟩ =
      ⟨errorEnvelope (Json.str "5") (-32603)
        "Internal error: NoneType object has no attribute get", [], []⟩ :=
  internal_fault_caught dbStub ⟨"2.0", "tools/call", some "5", none⟩
    "NoneType object has no attribute get" rfl

/-- Claim C7: a request with an id whose method is none of `initialize`,
`tools/list`, `tools/call`, `resources/list`, `prompts/list` yields the
`-32601` envelope `Method not found: <method>`; concretely, method
`foo/bar` with id `"42"` yields exactly the envelope with jsonrpc `2.0`,
id `"42"`, error code `-32601` and message `Method not found: foo/bar`. -/
theorem method_not_found_error (db : Db) (j i : String)
    (p : Option (List (String × Json))) (m : String)
    (h1 : m ≠ "initialize") (h2 : m ≠ "tools/list") (h3 : m ≠ "resources/list")
    (h4 : m ≠ "prompts/list") (h5 : m ≠ "tools/call") :
    process_bridge_request db ⟨j, m, some i, p⟩ =
      ⟨errorEnvelope (Json.str i) (-32601) ("Method not found: " ++ m), [], []⟩ ∧
    process_bridge_request db ⟨j, "foo/bar", some "42", p⟩ =
      ⟨Json.obj [("jsonrpc", Json.str "2.0"), ("id", Json.str "42"),
        ("error", Json.obj [("code", Json.num (-32601)),
          ("message", Json.str "Method not found: foo/bar")])], [], []⟩ := by
  constructor
  · unfold process_bridge_request process_bridge_request_core
    simp [h1, h2, h3, h4, h5]
  · rfl

/-- Witness for C7 at method `foo/bar`, id `"42"`. -/
theorem method_not_found_error_witness :
    process_bridge_request dbStub ⟨"2.0", "foo/bar", some "42", none⟩ =
      ⟨errorEnvelope (Json.str "42") (-32601) "Method not found: foo/bar", [], []⟩ ∧
    process_bridge_request dbStub ⟨"2.0", "foo/bar", some "42", none⟩ =
      ⟨Json.obj [("jsonrpc", Json.str "2.0"), ("id", Json.str "42"),
        ("error", Json.obj [("code", Json.num (-32601)),
          ("message", Json.str "Method not found: foo/bar")])], [], []⟩ :=
  method_not_found_error dbStub "2.0" "42" none "foo/bar"
    (by decide) (by decide) (by decide) (by decide) (by decide)

/-- Claim C8: `initialize` with an id returns the fixed
protocolVersion/capabilities/serverInfo descriptor, independent of the
request's params (and of the database and the jsonrpc field), so repeated
calls return identical results. -/
theorem initialize_fixed_idempotent (db db' : Db) (j j' i : String)
    (p p' : Option (List (String × Json))) :
    process_bridge_request db ⟨j, "initialize", some i, p⟩ =
      ⟨successEnvelope i initialize_result, [], []⟩ ∧
    process_bridge_request db ⟨j, "initialize", some i, p⟩ =
      process_bridge_request db' ⟨j', "initialize", some i, p'⟩ ∧
    initialize_result =
      Json.obj
        [("protocolVersion", Json.str "2024-11-05"),
         ("capabilities", Json.obj [("tools", Json.obj [])]),
         ("serverInfo", Json.obj
           [("name", Json.str "clickhouse-mcp-server"),
            ("version", Json.str "1.0.0")])] :=
  ⟨rfl, rfl, rfl⟩

/-- Claim C9: connection lifecycle — after setting a fresh id alive it is
alive; after popping it is not; popping an already-popped id succeeds and
changes nothing (idempotent removal); and the heartbeat generator's final
connection map is exactly the popped map, for every disconnect and fault
oracle and every fuel, i.e. cleanup runs no matter how the loop exits. -/
theorem connection_lifecycle :
    (∀ (m : Conns) (cid : String), isAlive (Conns.set m cid true) cid = true) ∧
    (∀ (m : Conns) (cid : String), isAlive (Conns.pop m cid) cid = false) ∧
    (∀ (m : Conns) (cid : String), Conns.pop (Conns.pop m cid) cid = Conns.pop m cid) ∧
    (∀ (m : Conns) (cid : String) (disc : Nat → Bool) (clock : Nat → String)
       (fault : Nat → Option String) (fuel : Nat),
       (create_heartbeat_stream m cid disc clock fault fuel).2.1 =
         Conns.pop (Conns.set m cid true) cid ∧
       isAlive (create_heartbeat_stream m cid disc clock fault fuel).2.1 cid = false) := by
  refine ⟨?_, ?_, pop_pop, ?_⟩
  · intro m cid
    unfold isAlive
    rw [lookup_set]
    rfl
  · intro m cid
    unfold isAlive
    rw [lookup_pop]
    rfl
  · intro m cid disc clock fault fuel
    constructor
    · rfl
    · show isAlive (Conns.pop (Conns.set m cid true) cid) cid = false
      unfold isAlive
      rw [lookup_pop]
      rfl

/-- Claim C10: any input whose stripped, lower-cased form starts with none
of `select`, `show`, `describe` makes `RunSelectQuery.execute` return the
JSON error text verbatim and issue no database query at all. -/
theorem non_readonly_query_rejected (db : Db) (sql : String)
    (h1 : strStartsWith (strToLower (strTrim sql)) "select" = false)
    (h2 : strStartsWith (strToLower (strTrim sql)) "show" = false)
    (h3 : strStartsWith (strToLower (strTrim sql)) "describe" = false) :
    RunSelectQuery.execute db sql =
      ("\x7b\"error\": \"Only SELECT, SHOW, and DESCRIBE queries are allowed\"\x7d", []) := by
  unfold RunSelectQuery.execute
  simp [h1, h2, h3]
  rfl

/-- Witness for C10 at the destructive input `DROP TABLE users`. -/
theorem non_readonly_query_rejected_witness :
    RunSelectQuery.execute dbStub "DROP TABLE users" =
      ("\x7b\"error\": \"Only SELECT, SHOW, and DESCRIBE queries are allowed\"\x7d", []) :=
  non_readonly_query_rejected dbStub "DROP TABLE users" rfl rfl rfl
